import Mathlib

/-!
Verification of the post-quantum-helper hybrid encryption core.

The development shallowly embeds the JavaScript source files
(key-manager.js, crypto-utils.js, encryptor.js). Bytes are `Nat`
values below 256 (the JS code works on `Uint8Array`). Platform
primitives that the repository treats as external collaborators
(the ML-KEM instances from the mlkem package, WebCrypto HKDF, the
noble ChaCha20-Poly1305 cipher, TextEncoder and TextDecoder, and
JSON.parse) are fields of a `CryptoEnv` record; the §6 contract
facts about them appear as hypotheses of the theorems. Base64 is
modelled concretely, mirroring Buffer base64 semantics on the
strings the code feeds it; randomness (salts, nonces, KEM coins)
is passed explicitly to the embedded functions, standing for the
values drawn from SecureRandom and from the KEM internals.
-/

/-! ## Base64 (crypto-utils.js, class Base64, backed by Buffer) -/

/-- The base64 alphabet in index order. -/
def b64Alphabet : List Char :=
  "ABCDEFGHIJKLMNOPQRSTUVWXYZabcdefghijklmnopqrstuvwxyz0123456789+/".data

/-- Index of a char in the base64 alphabet, none for a non-alphabet char. -/
def b64DigitVal (c : Char) : Option Nat :=
  let i := b64Alphabet.indexOf c
  if i < 64 then some i else none

/-- Char for a sextet value. -/
def sextetChar (n : Nat) : Char := b64Alphabet.getD n 'A'

/-- Whether a char belongs to the base64 alphabet. -/
def isB64Digit (c : Char) : Bool := (b64DigitVal c).isSome

/-- Bytes to sextets, in groups of three bytes. -/
def b64EncSextets : List Nat → List Nat
  | [] => []
  | [b0] => [b0 / 4, b0 % 4 * 16]
  | [b0, b1] => [b0 / 4, b0 % 4 * 16 + b1 / 16, b1 % 16 * 4]
  | b0 :: b1 :: b2 :: rest =>
      (b0 / 4) :: (b0 % 4 * 16 + b1 / 16) :: (b1 % 16 * 4 + b2 / 64) :: (b2 % 64)
        :: b64EncSextets rest

/-- Number of padding chars for a byte count. -/
def b64PadLen (n : Nat) : Nat :=
  if n % 3 = 1 then 2 else if n % 3 = 2 then 1 else 0

/-- Sextets back to bytes, in groups of four sextets; a trailing group of
two or three sextets yields one or two bytes, a single trailing sextet
yields nothing, as in the Node base64 decoder. -/
def b64DecSextets : List Nat → List Nat
  | s0 :: s1 :: s2 :: s3 :: rest =>
      (s0 * 4 + s1 / 16) :: (s1 % 16 * 16 + s2 / 4) :: (s2 % 4 * 64 + s3)
        :: b64DecSextets rest
  | [s0, s1] => [s0 * 4 + s1 / 16]
  | [s0, s1, s2] => [s0 * 4 + s1 / 16, s1 % 16 * 16 + s2 / 4]
  | _ => []

namespace Base64

/-- Base64.encode from crypto-utils.js: bytes to a padded base64 string. -/
def encode (bytes : List Nat) : String :=
  String.mk ((b64EncSextets bytes).map sextetChar
    ++ List.replicate (b64PadLen bytes.length) '=')

/-- Base64.decode from crypto-utils.js: decode the leading alphabet chars,
stopping at padding, as Buffer does on the strings this code decodes. -/
def decode (base64 : String) : List Nat :=
  b64DecSextets ((base64.data.takeWhile isB64Digit).filterMap b64DigitVal)

end Base64

/-- The regex test from key-manager.js and encryptor.js: one or more
base64-alphabet chars followed by any number of padding chars. -/
def isBase64Format (s : String) : Bool :=
  let digits := s.data.takeWhile isB64Digit
  !digits.isEmpty && (s.data.drop digits.length).all (fun c => c == '=')

/-! ### Base64 lemmas -/

theorem b64DigitVal_sextetChar : ∀ n, n < 64 → b64DigitVal (sextetChar n) = some n := by
  decide

theorem isB64Digit_sextetChar : ∀ n, n < 64 → isB64Digit (sextetChar n) = true := by
  decide

theorem b64EncSextets_lt :
    ∀ bs : List Nat, (∀ b ∈ bs, b < 256) → ∀ x ∈ b64EncSextets bs, x < 64
  | [], _ => by intro x hx; simp [b64EncSextets] at hx
  | [b0], h => by
      have h0 := h b0 (by simp)
      intro x hx
      simp [b64EncSextets] at hx
      rcases hx with hx | hx <;> omega
  | [b0, b1], h => by
      have h0 := h b0 (by simp)
      have h1 := h b1 (by simp)
      intro x hx
      simp [b64EncSextets] at hx
      rcases hx with hx | hx | hx <;> omega
  | b0 :: b1 :: b2 :: rest, h => by
      have h0 := h b0 (by simp)
      have h1 := h b1 (by simp)
      have h2 := h b2 (by simp)
      intro x hx
      simp only [b64EncSextets, List.mem_cons] at hx
      rcases hx with hx | hx | hx | hx | hx
      · omega
      · omega
      · omega
      · omega
      · exact b64EncSextets_lt rest (fun b hb => h b (by simp [hb])) x hx

theorem b64DecSextets_encSextets :
    ∀ bs : List Nat, (∀ b ∈ bs, b < 256) → b64DecSextets (b64EncSextets bs) = bs
  | [], _ => rfl
  | [b0], h => by
      have h0 := h b0 (by simp)
      simp only [b64EncSextets, b64DecSextets, List.cons.injEq, and_true]
      omega
  | [b0, b1], h => by
      have h0 := h b0 (by simp)
      have h1 := h b1 (by simp)
      simp only [b64EncSextets, b64DecSextets, List.cons.injEq, and_true]
      omega
  | b0 :: b1 :: b2 :: rest, h => by
      have h0 := h b0 (by simp)
      have h1 := h b1 (by simp)
      have h2 := h b2 (by simp)
      have ih := b64DecSextets_encSextets rest (fun b hb => h b (by simp [hb]))
      simp only [b64EncSextets, b64DecSextets, ih, List.cons.injEq, and_true]
      omega

theorem takeWhile_append_all {p : Char → Bool} :
    ∀ l1 l2 : List Char, (∀ c ∈ l1, p c = true) →
      List.takeWhile p (l1 ++ l2) = l1 ++ List.takeWhile p l2
  | [], l2, _ => rfl
  | a :: l1, l2, h => by
      have ha := h a (by simp)
      simp only [List.cons_append, List.takeWhile_cons, ha]
      simp [takeWhile_append_all l1 l2 (fun c hc => h c (by simp [hc]))]

theorem takeWhile_replicate_eq_nil {p : Char → Bool} {c : Char} (hc : p c = false) :
    ∀ k, List.takeWhile p (List.replicate k c) = []
  | 0 => rfl
  | k + 1 => by simp [List.replicate_succ, List.takeWhile_cons, hc]

theorem filterMap_digitVal_map_sextetChar :
    ∀ sx : List Nat, (∀ x ∈ sx, x < 64) →
      (sx.map sextetChar).filterMap b64DigitVal = sx
  | [], _ => rfl
  | x :: sx, h => by
      have hx := h x (by simp)
      simp only [List.map_cons, List.filterMap_cons, b64DigitVal_sextetChar x hx]
      simp [filterMap_digitVal_map_sextetChar sx (fun y hy => h y (by simp [hy]))]

theorem encode_data (bs : List Nat) :
    (Base64.encode bs).data =
      (b64EncSextets bs).map sextetChar ++ List.replicate (b64PadLen bs.length) '=' := rfl

theorem takeWhile_encode (bs : List Nat) (h : ∀ b ∈ bs, b < 256) :
    (Base64.encode bs).data.takeWhile isB64Digit = (b64EncSextets bs).map sextetChar := by
  rw [encode_data]
  rw [takeWhile_append_all _ _ (by
    intro c hc
    simp only [List.mem_map] at hc
    obtain ⟨x, hx, rfl⟩ := hc
    exact isB64Digit_sextetChar x (b64EncSextets_lt bs h x hx))]
  rw [takeWhile_replicate_eq_nil (by decide)]
  simp

/-- Decoding inverts encoding on byte lists. -/
theorem Base64.decode_encode (bs : List Nat) (h : ∀ b ∈ bs, b < 256) :
    Base64.decode (Base64.encode bs) = bs := by
  rw [Base64.decode, takeWhile_encode bs h,
    filterMap_digitVal_map_sextetChar _ (b64EncSextets_lt bs h)]
  exact b64DecSextets_encSextets bs h

theorem Base64.encode_injOn {bs1 bs2 : List Nat} (h1 : ∀ b ∈ bs1, b < 256)
    (h2 : ∀ b ∈ bs2, b < 256) (he : Base64.encode bs1 = Base64.encode bs2) :
    bs1 = bs2 := by
  have := congrArg Base64.decode he
  rwa [Base64.decode_encode bs1 h1, Base64.decode_encode bs2 h2] at this

/-- Length of the sextet list, as a function of the byte count. -/
def b64SxLen : Nat → Nat
  | 0 => 0
  | 1 => 2
  | 2 => 3
  | n + 3 => 4 + b64SxLen n

theorem b64EncSextets_length :
    ∀ bs : List Nat, (b64EncSextets bs).length = b64SxLen bs.length
  | [] => rfl
  | [_] => rfl
  | [_, _] => rfl
  | _ :: _ :: _ :: rest => by
      simp only [b64EncSextets, List.length_cons, b64SxLen]
      rw [b64EncSextets_length rest]
      omega

theorem encode_data_length (bs : List Nat) :
    (Base64.encode bs).data.length = b64SxLen bs.length + b64PadLen bs.length := by
  rw [encode_data]
  simp [b64EncSextets_length]

theorem b64SxLen_pos : ∀ n, 0 < n → 2 ≤ b64SxLen n
  | 1, _ => by simp [b64SxLen]
  | 2, _ => by simp [b64SxLen]
  | n + 3, _ => by simp [b64SxLen]; omega

theorem Base64.encode_ne_empty {bs : List Nat} (h : bs ≠ []) :
    Base64.encode bs ≠ "" := by
  intro he
  have hlen := congrArg (fun s => s.data.length) he
  simp only [encode_data_length] at hlen
  have : 0 < bs.length := List.length_pos.mpr h
  have := b64SxLen_pos bs.length this
  simp at hlen
  omega

theorem isBase64Format_encode {bs : List Nat} (hne : bs ≠ [])
    (h : ∀ b ∈ bs, b < 256) : isBase64Format (Base64.encode bs) = true := by
  rw [isBase64Format]
  simp only [Bool.and_eq_true, Bool.not_eq_true']
  constructor
  · rw [takeWhile_encode bs h]
    have hnil : (b64EncSextets bs).map sextetChar ≠ [] := by
      intro hnil
      have hlen := b64EncSextets_length bs
      rw [List.map_eq_nil_iff.mp hnil] at hlen
      have hpos : 0 < bs.length := List.length_pos.mpr hne
      have := b64SxLen_pos bs.length hpos
      simp at hlen
      omega
    simp [hnil]
  · rw [takeWhile_encode bs h, encode_data, List.drop_left]
    simp [List.all_eq_true, List.mem_replicate]

/-! ## JavaScript values and parsed JSON objects -/

/-- The JavaScript values the envelope fields can carry. -/
inductive JSVal where
  | str (s : String)
  | num (n : Int)
  | boolean (b : Bool)
  | null
  | undef
deriving DecidableEq

/-- JavaScript truthiness for the modelled values. -/
def JSVal.truthy : JSVal → Bool
  | .str s => decide (s ≠ "")
  | .num n => decide (n ≠ 0)
  | .boolean b => b
  | .null => false
  | .undef => false

/-- Result of JSON.parse on an envelope text: the seven fields the code
reads, each `undef` when absent from the parsed object. -/
structure ParsedMessage where
  v : JSVal
  alg : JSVal
  kem : JSVal
  s : JSVal
  n : JSVal
  c : JSVal
  t : JSVal
deriving DecidableEq

/-- Base64.decode applied to a parsed field, as in decrypt: Buffer.from
throws on a non-string argument, and the thrown message is opaque here. -/
def jsBase64Decode : JSVal → Except String (List Nat)
  | .str s => .ok (Base64.decode s)
  | _ => .error "argument must be a string"

/-! ## The external collaborators (§6 primitive adapter) -/

/-- The two KEM instances constructed in encryptor.js / key-manager.js. -/
inductive MlKemAlg where
  | mlKem1024
  | mlKem768
deriving DecidableEq

/-- The platform primitives the repository calls: the mlkem package,
WebCrypto HKDF, the noble ChaCha20-Poly1305 cipher, TextEncoder,
TextDecoder and JSON.parse. Encapsulation randomness is an explicit
argument; HKDF is a function, hence deterministic, matching its §6
contract. -/
structure CryptoEnv where
  kemEncap : MlKemAlg → List Nat → List Nat → Except String (List Nat × List Nat)
  kemDecap : MlKemAlg → List Nat → List Nat → Except String (List Nat)
  hkdfDerive : List Nat → List Nat → String → Nat → List Nat
  aeadEncrypt : List Nat → List Nat → List Nat → Except String (List Nat)
  aeadDecrypt : List Nat → List Nat → List Nat → Except String (List Nat)
  textEncode : String → List Nat
  textDecode : List Nat → String
  jsonParse : String → Option ParsedMessage

/-- ChaCha20Poly1305.encrypt from crypto-utils.js: the noble call with its
error wrapped by a stage label. -/
def ChaCha20Poly1305.encrypt (env : CryptoEnv) (key nonce plaintext : List Nat) :
    Except String (List Nat) :=
  match env.aeadEncrypt key nonce plaintext with
  | .ok ciphertext => .ok ciphertext
  | .error e => .error ("ChaCha20-Poly1305 encryption failed: " ++ e)

/-- ChaCha20Poly1305.decrypt from crypto-utils.js. -/
def ChaCha20Poly1305.decrypt (env : CryptoEnv) (key nonce ciphertext : List Nat) :
    Except String (List Nat) :=
  match env.aeadDecrypt key nonce ciphertext with
  | .ok plaintext => .ok plaintext
  | .error e => .error ("ChaCha20-Poly1305 decryption failed: " ++ e)

/-- CryptoUtils.secureClear from crypto-utils.js: fill with zeros,
preserving length. -/
def CryptoUtils.secureClear (data : List Nat) : List Nat :=
  List.replicate data.length 0

/-! ## Key Lifecycle Manager (key-manager.js) -/

def ML_KEM_1024_PUBLIC_KEY_SIZE : Nat := 1568
def ML_KEM_1024_PRIVATE_KEY_SIZE : Nat := 3168
def ML_KEM_768_PUBLIC_KEY_SIZE : Nat := 1184
def ML_KEM_768_PRIVATE_KEY_SIZE : Nat := 2400

def SUPPORTED_ALGORITHMS : List String := ["ML-KEM-1024", "ML-KEM-768"]
def DEFAULT_ALGORITHM : String := "ML-KEM-1024"

/-- A key pair as returned by generateKeyPair. -/
structure KeyPair where
  publicKey : String
  privateKey : String
  algorithm : String
deriving DecidableEq

/-- The record produced by exportKeyPair. -/
structure ExportedKeyRecord where
  publicKey : String
  privateKey : String
  algorithm : String
  timestamp : Nat
  version : String
deriving DecidableEq

/-- exportKeyPair from key-manager.js; Date.now() is the explicit
`now` argument. -/
def exportKeyPair (keyPair : KeyPair) (now : Nat) : ExportedKeyRecord :=
  { publicKey := keyPair.publicKey
    privateKey := keyPair.privateKey
    algorithm := keyPair.algorithm
    timestamp := now
    version := "1.0.0" }

/-- Input to importKeyPair, restricted to the string-or-absent field
shapes the claims quantify over; an absent field is `none`. -/
structure ImportData where
  publicKey : Option String
  privateKey : Option String
  algorithm : Option String
deriving DecidableEq

/-- View of an exported record as import input. -/
def ExportedKeyRecord.toImportData (r : ExportedKeyRecord) : ImportData :=
  { publicKey := some r.publicKey
    privateKey := some r.privateKey
    algorithm := some r.algorithm }

/-- The JavaScript `x || d` idiom on an optional string field: an absent
or empty string falls back to the default. -/
def jsOrString : Option String → String → String
  | some s, d => if s = "" then d else s
  | none, d => d

/-- importKeyPair from key-manager.js. -/
def importKeyPair (data : ImportData) : Except String KeyPair :=
  match data.publicKey with
  | none => .error "Invalid key pair data: missing or invalid publicKey"
  | some pk =>
    if pk = "" then .error "Invalid key pair data: missing or invalid publicKey"
    else
      match data.privateKey with
      | none => .error "Invalid key pair data: missing or invalid privateKey"
      | some sk =>
        if sk = "" then .error "Invalid key pair data: missing or invalid privateKey"
        else
          let algorithm := jsOrString data.algorithm DEFAULT_ALGORITHM
          if SUPPORTED_ALGORITHMS.contains algorithm then
            .ok { publicKey := pk, privateKey := sk, algorithm := algorithm }
          else
            .error ("Unsupported algorithm: " ++ algorithm
              ++ ". Supported: ML-KEM-1024, ML-KEM-768")

/-- validatePublicKey from key-manager.js: a total boolean predicate.
The embedding is a total function, so the never-throws part of its
contract holds by construction; the surrounding try/catch of the source
has no residual behaviour to model. -/
def validatePublicKey (publicKey : JSVal) (algorithm : String) : Bool :=
  match publicKey with
  | .str pk =>
    if pk = "" then false
    else if !(isBase64Format pk) then false
    else
      let keyBytes := Base64.decode pk
      if algorithm = "ML-KEM-1024" then
        if keyBytes.length ≠ ML_KEM_1024_PUBLIC_KEY_SIZE then false
        else if keyBytes.all (fun b => b == 0) then false
        else true
      else if algorithm = "ML-KEM-768" then
        if keyBytes.length ≠ ML_KEM_768_PUBLIC_KEY_SIZE then false
        else if keyBytes.all (fun b => b == 0) then false
        else true
      else false
  | _ => false

/-! ## Envelope Codec -/

/-- The envelope object built by encrypt before JSON.stringify. -/
structure Envelope where
  v : Nat
  alg : String
  kem : String
  s : String
  n : String
  c : String
  t : Nat
deriving DecidableEq

/-- Character stream of JSON.stringify on an envelope: fixed field order,
string fields quoted verbatim (they only ever hold base64 text and suite
names, which need no escaping), numbers in decimal. -/
def serializeChars (e : Envelope) : List Char :=
  "\x7b\"v\":".data ++ (toString e.v).data
    ++ ",\"alg\":\"".data ++ e.alg.data
    ++ "\",\"kem\":\"".data ++ e.kem.data
    ++ "\",\"s\":\"".data ++ e.s.data
    ++ "\",\"n\":\"".data ++ e.n.data
    ++ "\",\"c\":\"".data ++ e.c.data
    ++ "\",\"t\":".data ++ (toString e.t).data ++ "\x7d".data

/-- JSON.stringify of the envelope object. -/
def serializeEnvelope (e : Envelope) : String := String.mk (serializeChars e)

/-- The parse result JSON.parse yields on a serialized envelope. -/
def Envelope.toParsed (e : Envelope) : ParsedMessage :=
  { v := .num (e.v : Int)
    alg := .str e.alg
    kem := .str e.kem
    s := .str e.s
    n := .str e.n
    c := .str e.c
    t := .num (e.t : Int) }

/-! ## Hybrid Cipher (encryptor.js) -/

/-- The KEM instance selection shared by encrypt and decrypt: the
ML-KEM-768 instance exactly for the string "ML-KEM-768", the
ML-KEM-1024 instance for every other value. -/
def algToKem (algorithm : String) : MlKemAlg :=
  if algorithm = "ML-KEM-768" then .mlKem768 else .mlKem1024

/-- The envelope object encrypt assembles. -/
def mkEnvelope (algorithm : String) (kemCiphertext salt nonce messageCiphertext : List Nat)
    (now : Nat) : Envelope :=
  { v := 3
    alg := algorithm
    kem := Base64.encode kemCiphertext
    s := Base64.encode salt
    n := Base64.encode nonce
    c := Base64.encode messageCiphertext
    t := now }

/-- Contents of the two sensitive buffers of one encrypt or decrypt call
at the moment the call returns or throws; `none` marks a buffer that was
never created on the path taken. -/
structure SensBufs where
  chachaKey : Option (List Nat)
  sharedSecret : Option (List Nat)
deriving DecidableEq

/-- encrypt from encryptor.js, with the envelope still as a record and
the sensitive-buffer contents at exit made observable. The message is
`none` for a nullish argument; randomness (KEM coins, the 32-byte salt
and 12-byte nonce from SecureRandom) and Date.now() are explicit
arguments. Every thrown error carries the outer stage label. -/
def encryptFull (env : CryptoEnv) (message : Option String) (recipientPublicKey : String)
    (algorithm : String) (encapCoins salt nonce : List Nat) (now : Nat) :
    Except String Envelope × SensBufs :=
  match message with
  | none => (.error "Encryption failed: Message is required", ⟨none, none⟩)
  | some m =>
    if recipientPublicKey = "" then
      (.error "Encryption failed: Invalid recipient public key", ⟨none, none⟩)
    else if !(isBase64Format recipientPublicKey) then
      (.error "Encryption failed: Public key must be valid Base64", ⟨none, none⟩)
    else
      let recipientPubKeyBytes := Base64.decode recipientPublicKey
      let kemInstance := algToKem algorithm
      match env.kemEncap kemInstance recipientPubKeyBytes encapCoins with
      | .error e => (.error ("Encryption failed: " ++ e), ⟨none, none⟩)
      | .ok (kemCiphertext, sharedSecret) =>
        let chachaKey := env.hkdfDerive sharedSecret salt "ChaCha20-Poly1305" 32
        let plaintext := env.textEncode m
        match ChaCha20Poly1305.encrypt env chachaKey nonce plaintext with
        | .error e =>
            (.error ("Encryption failed: " ++ e), ⟨some chachaKey, some sharedSecret⟩)
        | .ok messageCiphertext =>
            (.ok (mkEnvelope algorithm kemCiphertext salt nonce messageCiphertext now),
             ⟨some (CryptoUtils.secureClear chachaKey),
              some (CryptoUtils.secureClear sharedSecret)⟩)

/-- encrypt as the caller sees it: the serialized envelope or the error. -/
def encrypt (env : CryptoEnv) (message : Option String) (recipientPublicKey : String)
    (algorithm : String) (encapCoins salt nonce : List Nat) (now : Nat) :
    Except String String :=
  (encryptFull env message recipientPublicKey algorithm encapCoins salt nonce now).1.map
    serializeEnvelope

/-- The structure validation of decrypt: the six checked fields must all
be truthy; the timestamp field is not consulted. -/
def envelopeFieldsOk (messageData : ParsedMessage) : Bool :=
  messageData.v.truthy && messageData.alg.truthy && messageData.kem.truthy
    && messageData.s.truthy && messageData.n.truthy && messageData.c.truthy

/-- The part of decrypt after input checks and JSON parsing: algorithm
resolution, decapsulation, key derivation and AEAD open, with the
sensitive-buffer contents at exit made observable. -/
def decryptAfterChecks (env : CryptoEnv) (privateKey : String) (algorithm : Option String)
    (messageData : ParsedMessage) : Except String String × SensBufs :=
  let detectedAlgorithm : JSVal :=
    match algorithm with
    | some a => if a = "" then messageData.alg else .str a
    | none => messageData.alg
  let kemInstance : MlKemAlg :=
    if detectedAlgorithm = JSVal.str "ML-KEM-768" then .mlKem768 else .mlKem1024
  let privateKeyBytes := Base64.decode privateKey
  match jsBase64Decode messageData.kem with
  | .error e => (.error ("Decryption failed: " ++ e), ⟨none, none⟩)
  | .ok kemCiphertext =>
    match env.kemDecap kemInstance kemCiphertext privateKeyBytes with
    | .error e => (.error ("Decryption failed: " ++ e), ⟨none, none⟩)
    | .ok sharedSecret =>
      match jsBase64Decode messageData.s with
      | .error e => (.error ("Decryption failed: " ++ e), ⟨none, some sharedSecret⟩)
      | .ok salt =>
        let chachaKey := env.hkdfDerive sharedSecret salt "ChaCha20-Poly1305" 32
        match jsBase64Decode messageData.n with
        | .error e => (.error ("Decryption failed: " ++ e), ⟨some chachaKey, some sharedSecret⟩)
        | .ok nonce =>
          match jsBase64Decode messageData.c with
          | .error e => (.error ("Decryption failed: " ++ e), ⟨some chachaKey, some sharedSecret⟩)
          | .ok messageCiphertext =>
            match ChaCha20Poly1305.decrypt env chachaKey nonce messageCiphertext with
            | .error e =>
                (.error ("Decryption failed: " ++ e), ⟨some chachaKey, some sharedSecret⟩)
            | .ok plaintext =>
                (.ok (env.textDecode plaintext),
                 ⟨some (CryptoUtils.secureClear chachaKey),
                  some (CryptoUtils.secureClear sharedSecret)⟩)

/-- decrypt from encryptor.js, with the sensitive-buffer contents at
exit made observable. The optional algorithm override is `none` for the
null default. -/
def decryptFull (env : CryptoEnv) (encryptedContent privateKey : String)
    (algorithm : Option String) : Except String String × SensBufs :=
  if encryptedContent = "" then
    (.error "Decryption failed: Invalid encrypted content", ⟨none, none⟩)
  else if privateKey = "" then
    (.error "Decryption failed: Invalid private key", ⟨none, none⟩)
  else
    match env.jsonParse encryptedContent with
    | none => (.error "Decryption failed: Invalid encrypted message format", ⟨none, none⟩)
    | some messageData =>
      if !(envelopeFieldsOk messageData) then
        (.error "Decryption failed: Missing required fields in encrypted message",
         ⟨none, none⟩)
      else
        decryptAfterChecks env privateKey algorithm messageData

/-- decrypt as the caller sees it. -/
def decrypt (env : CryptoEnv) (encryptedContent privateKey : String)
    (algorithm : Option String) : Except String String :=
  (decryptFull env encryptedContent privateKey algorithm).1

/-- isValidEncryptedMessage from encryptor.js. -/
def isValidEncryptedMessage (env : CryptoEnv) (encryptedContent : JSVal) : Bool :=
  match encryptedContent with
  | .str s =>
    if s = "" then false
    else
      match env.jsonParse s with
      | none => false
      | some messageData => envelopeFieldsOk messageData
  | _ => false

/-! ## Helper lemmas about the embedded operations -/

theorem serializeChars_length_ge (e : Envelope) : 5 ≤ (serializeChars e).length := by
  rw [serializeChars]
  simp [List.length_append]

theorem serializeEnvelope_ne_empty (e : Envelope) : serializeEnvelope e ≠ "" := by
  intro h
  have hd : serializeChars e = [] := by
    have := congrArg String.data h
    simpa [serializeEnvelope] using this
  have hge := serializeChars_length_ge e
  rw [hd] at hge
  simp at hge

theorem truthy_str_iff (s : String) : (JSVal.str s).truthy = true ↔ s ≠ "" := by
  simp [JSVal.truthy]

theorem envelopeFieldsOk_mkEnvelope {algorithm : String}
    {kemCiphertext salt nonce messageCiphertext : List Nat} {now : Nat}
    (halg : algorithm ≠ "") (hkem : kemCiphertext ≠ []) (hsalt : salt ≠ [])
    (hnonce : nonce ≠ []) (hct : messageCiphertext ≠ []) :
    envelopeFieldsOk (mkEnvelope algorithm kemCiphertext salt nonce messageCiphertext now).toParsed
      = true := by
  simp [envelopeFieldsOk, mkEnvelope, Envelope.toParsed, JSVal.truthy, halg,
    Base64.encode_ne_empty hkem, Base64.encode_ne_empty hsalt,
    Base64.encode_ne_empty hnonce, Base64.encode_ne_empty hct]

/-! ## C1: round-trip -/

/-- C1: for every supported suite, every key pair and every message
string, decrypt inverts encrypt, assuming the §6 contracts of the
primitives. The hypotheses are exactly those contracts, stated at the
values of this call: the KEM decapsulates the freshly encapsulated
ciphertext to the same shared secret, the AEAD opens its own seal,
the text codec round-trips, JSON.parse inverts JSON.stringify on the
emitted envelope, and all byte values are below 256. -/
theorem c1_round_trip (env : CryptoEnv) (m algorithm : String)
    (pkBytes skBytes encapCoins salt nonce kemCiphertext sharedSecret messageCiphertext : List Nat)
    (now : Nat)
    (hsuite : algorithm = "ML-KEM-1024" ∨ algorithm = "ML-KEM-768")
    (hpk : ∀ b ∈ pkBytes, b < 256) (hpkne : pkBytes ≠ [])
    (hsk : ∀ b ∈ skBytes, b < 256) (hskne : skBytes ≠ [])
    (hkemct : ∀ b ∈ kemCiphertext, b < 256) (hkemne : kemCiphertext ≠ [])
    (hsalt : ∀ b ∈ salt, b < 256) (hsaltne : salt ≠ [])
    (hnonce : ∀ b ∈ nonce, b < 256) (hnoncene : nonce ≠ [])
    (hct : ∀ b ∈ messageCiphertext, b < 256) (hctne : messageCiphertext ≠ [])
    (hencap : env.kemEncap (algToKem algorithm) pkBytes encapCoins
      = .ok (kemCiphertext, sharedSecret))
    (hdecap : env.kemDecap (algToKem algorithm) kemCiphertext skBytes = .ok sharedSecret)
    (hseal : env.aeadEncrypt (env.hkdfDerive sharedSecret salt "ChaCha20-Poly1305" 32) nonce
      (env.textEncode m) = .ok messageCiphertext)
    (hopen : env.aeadDecrypt (env.hkdfDerive sharedSecret salt "ChaCha20-Poly1305" 32) nonce
      messageCiphertext = .ok (env.textEncode m))
    (htext : env.textDecode (env.textEncode m) = m)
    (hparse : env.jsonParse
        (serializeEnvelope (mkEnvelope algorithm kemCiphertext salt nonce messageCiphertext now))
      = some (mkEnvelope algorithm kemCiphertext salt nonce messageCiphertext now).toParsed) :
    encrypt env (some m) (Base64.encode pkBytes) algorithm encapCoins salt nonce now
      = .ok (serializeEnvelope (mkEnvelope algorithm kemCiphertext salt nonce messageCiphertext now))
    ∧ decrypt env
        (serializeEnvelope (mkEnvelope algorithm kemCiphertext salt nonce messageCiphertext now))
        (Base64.encode skBytes) (some algorithm) = .ok m := by
  have hdecpk : Base64.decode (Base64.encode pkBytes) = pkBytes := Base64.decode_encode _ hpk
  have hdecsk : Base64.decode (Base64.encode skBytes) = skBytes := Base64.decode_encode _ hsk
  have hpkne' : Base64.encode pkBytes ≠ "" := Base64.encode_ne_empty hpkne
  have hskne' : Base64.encode skBytes ≠ "" := Base64.encode_ne_empty hskne
  have hfmt : isBase64Format (Base64.encode pkBytes) = true := isBase64Format_encode hpkne hpk
  have halgne : algorithm ≠ "" := by rcases hsuite with h | h <;> simp [h]
  constructor
  · rw [encrypt, encryptFull]
    simp only [if_neg hpkne', hfmt, Bool.not_true, Bool.false_eq_true, if_false, hdecpk,
      hencap, ChaCha20Poly1305.encrypt, hseal, Except.map]
  · rw [decrypt, decryptFull,
      if_neg (serializeEnvelope_ne_empty
        (mkEnvelope algorithm kemCiphertext salt nonce messageCiphertext now)),
      if_neg hskne', hparse]
    dsimp only
    rw [envelopeFieldsOk_mkEnvelope halgne hkemne hsaltne hnoncene hctne]
    simp only [Bool.not_true, Bool.false_eq_true, if_false, decryptAfterChecks,
      mkEnvelope, Envelope.toParsed, if_neg halgne, JSVal.str.injEq]
    simp only [jsBase64Decode, Base64.decode_encode _ hkemct, Base64.decode_encode _ hsalt,
      Base64.decode_encode _ hnonce, Base64.decode_encode _ hct, hdecsk]
    simp only [algToKem] at hdecap
    rw [hdecap]
    simp only [ChaCha20Poly1305.decrypt, hopen, htext]

/-! ## Concrete primitive instantiations for witnesses and counterexamples

Small executable instances of the §6 collaborators, used only to
evaluate the embedded operations at concrete inputs. -/

def toyKemEncap : MlKemAlg → List Nat → List Nat → Except String (List Nat × List Nat) :=
  fun _ pk coins => .ok (coins ++ [1], pk)

def toyKemDecap : MlKemAlg → List Nat → List Nat → Except String (List Nat) :=
  fun _ _ sk => .ok sk

def toyHkdf : List Nat → List Nat → String → Nat → List Nat :=
  fun ikm salt _ len => ikm ++ salt ++ [len]

def toyAeadEncrypt : List Nat → List Nat → List Nat → Except String (List Nat) :=
  fun _ _ pt => .ok (pt ++ [7])

def toyAeadDecrypt : List Nat → List Nat → List Nat → Except String (List Nat) :=
  fun _ _ ct => .ok ct.dropLast

def toyTextEncode : String → List Nat := fun s => s.data.map Char.toNat

def toyTextDecode : List Nat → String := fun bs => String.mk (bs.map Char.ofNat)

/-- The envelope the toy environment produces for the concrete C1 run. -/
def c1Envelope : Envelope := mkEnvelope "ML-KEM-1024" [2, 1] [4] [5] [72, 105, 7] 0

/-- A JSON.parse oracle that recognizes exactly the C1 envelope text. -/
def c1Parse : String → Option ParsedMessage :=
  fun s => if s = serializeEnvelope c1Envelope then some c1Envelope.toParsed else none

def c1Env : CryptoEnv :=
  { kemEncap := toyKemEncap
    kemDecap := toyKemDecap
    hkdfDerive := toyHkdf
    aeadEncrypt := toyAeadEncrypt
    aeadDecrypt := toyAeadDecrypt
    textEncode := toyTextEncode
    textDecode := toyTextDecode
    jsonParse := c1Parse }

/-- C1 witness: the round-trip theorem applied to a concrete message,
key pair and environment. -/
theorem c1_round_trip_witness :
    encrypt c1Env (some "Hi") (Base64.encode [1, 2, 3]) "ML-KEM-1024" [2] [4] [5] 0
      = .ok (serializeEnvelope (mkEnvelope "ML-KEM-1024" [2, 1] [4] [5] [72, 105, 7] 0))
    ∧ decrypt c1Env (serializeEnvelope (mkEnvelope "ML-KEM-1024" [2, 1] [4] [5] [72, 105, 7] 0))
        (Base64.encode [1, 2, 3]) (some "ML-KEM-1024") = .ok "Hi" :=
  c1_round_trip c1Env "Hi" "ML-KEM-1024" [1, 2, 3] [1, 2, 3] [2] [4] [5] [2, 1] [1, 2, 3]
    [72, 105, 7] 0 (Or.inl rfl) (by decide) (by decide) (by decide) (by decide) (by decide)
    (by decide) (by decide) (by decide) (by decide) (by decide) (by decide) (by decide)
    rfl rfl rfl rfl rfl
    (by simp [c1Env, c1Parse, c1Envelope])

/-! ## C9: encrypt records the caller algorithm verbatim, selecting ML-KEM-1024 -/

/-- C9: for every algorithm argument other than "ML-KEM-768", encrypt
behaves exactly as with "ML-KEM-1024" — same KEM instance, same
ciphertexts, same buffers, no unsupported-algorithm failure — except
that the emitted envelope carries the caller string verbatim in its
alg field. -/
theorem c9_alg_recorded_verbatim (env : CryptoEnv) (message : Option String)
    (recipientPublicKey a : String) (encapCoins salt nonce : List Nat) (now : Nat)
    (ha : a ≠ "ML-KEM-768") :
    encryptFull env message recipientPublicKey a encapCoins salt nonce now
      = ((encryptFull env message recipientPublicKey "ML-KEM-1024" encapCoins salt nonce now).1.map
          (fun e => { e with alg := a }),
         (encryptFull env message recipientPublicKey "ML-KEM-1024" encapCoins salt nonce now).2) := by
  have hk : algToKem a = algToKem "ML-KEM-1024" := by simp [algToKem, ha]
  cases message with
  | none => simp [encryptFull, Except.map]
  | some m =>
    by_cases hpk : recipientPublicKey = ""
    · simp [encryptFull, hpk, Except.map]
    · by_cases hfmt : isBase64Format recipientPublicKey
      · rw [encryptFull, encryptFull]
        simp only [if_neg hpk, hfmt, Bool.not_true, Bool.false_eq_true, if_false, hk]
        cases henc : env.kemEncap (algToKem "ML-KEM-1024")
            (Base64.decode recipientPublicKey) encapCoins with
        | error e => simp [Except.map]
        | ok p =>
          obtain ⟨kemCt, ss⟩ := p
          cases hs : ChaCha20Poly1305.encrypt env (env.hkdfDerive ss salt "ChaCha20-Poly1305" 32)
              nonce (env.textEncode m) with
          | error e => simp [hs, Except.map]
          | ok ct => simp [hs, Except.map, mkEnvelope]
      · simp [encryptFull, hpk, hfmt, Except.map]

/-- C9 witness: a concrete run with the unrecognized name "ML-KEM-512". -/
theorem c9_alg_recorded_verbatim_witness :
    encryptFull c1Env (some "Hi") (Base64.encode [1, 2, 3]) "ML-KEM-512" [2] [4] [5] 0
      = ((encryptFull c1Env (some "Hi") (Base64.encode [1, 2, 3]) "ML-KEM-1024" [2] [4] [5] 0).1.map
          (fun e => { e with alg := "ML-KEM-512" }),
         (encryptFull c1Env (some "Hi") (Base64.encode [1, 2, 3]) "ML-KEM-1024" [2] [4] [5] 0).2) :=
  c9_alg_recorded_verbatim c1Env (some "Hi") (Base64.encode [1, 2, 3]) "ML-KEM-512"
    [2] [4] [5] 0 (by decide)

/-! ## C2: tamper detection -/

/-- C2: for an envelope produced by encrypt, any change to the bytes of
the ciphertext field causes decrypt with the matching private key to
fail with the authentication-failure error, and never to return a
plaintext. The hypothesis hreject is the §6 AEAD contract assumed by
the claim: under the derived key and nonce, open rejects every
ciphertext other than the genuine one. -/
theorem c2_tamper_detection (env : CryptoEnv) (m algorithm : String)
    (pkBytes skBytes encapCoins salt nonce kemCiphertext sharedSecret
      messageCiphertext tampered : List Nat)
    (now : Nat) (emsg : String)
    (hsuite : algorithm = "ML-KEM-1024" ∨ algorithm = "ML-KEM-768")
    (hpk : ∀ b ∈ pkBytes, b < 256) (hpkne : pkBytes ≠ [])
    (hsk : ∀ b ∈ skBytes, b < 256) (hskne : skBytes ≠ [])
    (hkemct : ∀ b ∈ kemCiphertext, b < 256) (hkemne : kemCiphertext ≠ [])
    (hsalt : ∀ b ∈ salt, b < 256) (hsaltne : salt ≠ [])
    (hnonce : ∀ b ∈ nonce, b < 256) (hnoncene : nonce ≠ [])
    (htam : ∀ b ∈ tampered, b < 256) (htamne : tampered ≠ [])
    (htamper : tampered ≠ messageCiphertext)
    (hencap : env.kemEncap (algToKem algorithm) pkBytes encapCoins
      = .ok (kemCiphertext, sharedSecret))
    (hdecap : env.kemDecap (algToKem algorithm) kemCiphertext skBytes = .ok sharedSecret)
    (hseal : env.aeadEncrypt (env.hkdfDerive sharedSecret salt "ChaCha20-Poly1305" 32) nonce
      (env.textEncode m) = .ok messageCiphertext)
    (hreject : ∀ ct, ct ≠ messageCiphertext →
      env.aeadDecrypt (env.hkdfDerive sharedSecret salt "ChaCha20-Poly1305" 32) nonce ct
        = .error emsg)
    (hparse : env.jsonParse
        (serializeEnvelope (mkEnvelope algorithm kemCiphertext salt nonce tampered now))
      = some (mkEnvelope algorithm kemCiphertext salt nonce tampered now).toParsed) :
    encrypt env (some m) (Base64.encode pkBytes) algorithm encapCoins salt nonce now
      = .ok (serializeEnvelope (mkEnvelope algorithm kemCiphertext salt nonce messageCiphertext now))
    ∧ decrypt env (serializeEnvelope (mkEnvelope algorithm kemCiphertext salt nonce tampered now))
        (Base64.encode skBytes) (some algorithm)
      = .error ("Decryption failed: ChaCha20-Poly1305 decryption failed: " ++ emsg) := by
  have hdecpk : Base64.decode (Base64.encode pkBytes) = pkBytes := Base64.decode_encode _ hpk
  have hdecsk : Base64.decode (Base64.encode skBytes) = skBytes := Base64.decode_encode _ hsk
  have hpkne' : Base64.encode pkBytes ≠ "" := Base64.encode_ne_empty hpkne
  have hskne' : Base64.encode skBytes ≠ "" := Base64.encode_ne_empty hskne
  have hfmt : isBase64Format (Base64.encode pkBytes) = true := isBase64Format_encode hpkne hpk
  have halgne : algorithm ≠ "" := by rcases hsuite with h | h <;> simp [h]
  constructor
  · rw [encrypt, encryptFull]
    simp only [if_neg hpkne', hfmt, Bool.not_true, Bool.false_eq_true, if_false, hdecpk,
      hencap, ChaCha20Poly1305.encrypt, hseal, Except.map]
  · rw [decrypt, decryptFull,
      if_neg (serializeEnvelope_ne_empty
        (mkEnvelope algorithm kemCiphertext salt nonce tampered now)),
      if_neg hskne', hparse]
    dsimp only
    rw [envelopeFieldsOk_mkEnvelope halgne hkemne hsaltne hnoncene htamne]
    simp only [Bool.not_true, Bool.false_eq_true, if_false, decryptAfterChecks,
      mkEnvelope, Envelope.toParsed, if_neg halgne, JSVal.str.injEq]
    simp only [jsBase64Decode, Base64.decode_encode _ hkemct, Base64.decode_encode _ hsalt,
      Base64.decode_encode _ hnonce, Base64.decode_encode _ htam, hdecsk]
    simp only [algToKem] at hdecap
    rw [hdecap]
    simp only [ChaCha20Poly1305.decrypt, hreject tampered htamper]
    rfl

/-- The AEAD open of the rigged C2 environment: it accepts exactly the
genuine ciphertext of the concrete C2 run. -/
def c2AeadDecrypt : List Nat → List Nat → List Nat → Except String (List Nat) :=
  fun _ _ ct => if ct = [72, 105, 7] then .ok [72, 105] else .error "invalid tag"

/-- The tampered envelope of the concrete C2 run: last ciphertext byte
changed from 7 to 8. -/
def c2Tampered : Envelope := mkEnvelope "ML-KEM-1024" [2, 1] [4] [5] [72, 105, 8] 0

def c2Parse : String → Option ParsedMessage :=
  fun s => if s = serializeEnvelope c2Tampered then some c2Tampered.toParsed else none

def c2Env : CryptoEnv :=
  { kemEncap := toyKemEncap
    kemDecap := toyKemDecap
    hkdfDerive := toyHkdf
    aeadEncrypt := toyAeadEncrypt
    aeadDecrypt := c2AeadDecrypt
    textEncode := toyTextEncode
    textDecode := toyTextDecode
    jsonParse := c2Parse }

/-- C2 witness: a concrete run in which one ciphertext byte is changed
and decrypt answers with the authentication-failure error. -/
theorem c2_tamper_detection_witness :
    encrypt c2Env (some "Hi") (Base64.encode [1, 2, 3]) "ML-KEM-1024" [2] [4] [5] 0
      = .ok (serializeEnvelope (mkEnvelope "ML-KEM-1024" [2, 1] [4] [5] [72, 105, 7] 0))
    ∧ decrypt c2Env (serializeEnvelope (mkEnvelope "ML-KEM-1024" [2, 1] [4] [5] [72, 105, 8] 0))
        (Base64.encode [1, 2, 3]) (some "ML-KEM-1024")
      = .error ("Decryption failed: ChaCha20-Poly1305 decryption failed: " ++ "invalid tag") :=
  c2_tamper_detection c2Env "Hi" "ML-KEM-1024" [1, 2, 3] [1, 2, 3] [2] [4] [5] [2, 1] [1, 2, 3]
    [72, 105, 7] [72, 105, 8] 0 "invalid tag" (Or.inl rfl) (by decide) (by decide) (by decide)
    (by decide) (by decide) (by decide) (by decide) (by decide) (by decide) (by decide)
    (by decide) (by decide) (by decide) rfl rfl rfl
    (fun ct hct => by simp only [c2Env, c2AeadDecrypt]; rw [if_neg hct])
    (by simp [c2Env, c2Parse, c2Tampered])

/-! ## C3: erasure of sensitive buffers -/

/-- C3 (amended): on every successful encrypt and every successful
decrypt the two sensitive buffers are zero-filled at return. The
original claim extends this to every failure path, which the code does
not do; see the counterexample. -/
theorem c3_cleared_on_success :
    (∀ (env : CryptoEnv) (message : Option String) (pk alg : String)
        (coins salt nonce : List Nat) (now : Nat) (e : Envelope) (bufs : SensBufs),
      encryptFull env message pk alg coins salt nonce now = (.ok e, bufs) →
      ∃ k s, bufs = ⟨some k, some s⟩ ∧ (∀ b ∈ k, b = 0) ∧ (∀ b ∈ s, b = 0))
    ∧ (∀ (env : CryptoEnv) (content sk : String) (ov : Option String)
        (msg : String) (bufs : SensBufs),
      decryptFull env content sk ov = (.ok msg, bufs) →
      ∃ k s, bufs = ⟨some k, some s⟩ ∧ (∀ b ∈ k, b = 0) ∧ (∀ b ∈ s, b = 0)) := by
  constructor
  · intro env message pk alg coins salt nonce now e bufs h
    cases message with
    | none => simp [encryptFull] at h
    | some m =>
      by_cases hpk : pk = ""
      · simp [encryptFull, hpk] at h
      · by_cases hfmt : isBase64Format pk
        · rw [encryptFull] at h
          simp only [if_neg hpk, hfmt, Bool.not_true, Bool.false_eq_true, if_false] at h
          cases henc : env.kemEncap (algToKem alg) (Base64.decode pk) coins with
          | error er => rw [henc] at h; simp at h
          | ok p =>
            obtain ⟨kemCt, ss⟩ := p
            rw [henc] at h
            dsimp only at h
            cases hs : ChaCha20Poly1305.encrypt env
                (env.hkdfDerive ss salt "ChaCha20-Poly1305" 32) nonce (env.textEncode m) with
            | error er => rw [hs] at h; simp at h
            | ok ct =>
              rw [hs] at h
              simp only [Prod.mk.injEq] at h
              refine ⟨_, _, h.2.symm, ?_, ?_⟩ <;>
                exact fun b hb => List.eq_of_mem_replicate hb
        · simp [encryptFull, hpk, hfmt] at h
  · intro env content sk ov msg bufs h
    by_cases hc : content = ""
    · simp [decryptFull, hc] at h
    · by_cases hk : sk = ""
      · simp [decryptFull, hc, hk] at h
      · rw [decryptFull, if_neg hc, if_neg hk] at h
        cases hp : env.jsonParse content with
        | none => rw [hp] at h; simp at h
        | some md =>
          rw [hp] at h
          by_cases hok : envelopeFieldsOk md
          · simp only [hok, Bool.not_true, Bool.false_eq_true, if_false] at h
            simp only [decryptAfterChecks] at h
            repeat' split at h
            all_goals
              first
              | (simp only [Prod.mk.injEq] at h
                 refine ⟨_, _, h.2.symm, ?_, ?_⟩ <;>
                   exact fun b hb => List.eq_of_mem_replicate hb)
              | simp at h
          · simp [hok] at h

/-- C3 witness: the cleared-on-success statement applied to the
concrete successful encrypt run of the toy environment. -/
theorem c3_cleared_on_success_witness :
    ∃ k s, (encryptFull c1Env (some "Hi") (Base64.encode [1, 2, 3])
        "ML-KEM-1024" [2] [4] [5] 0).2
      = ⟨some k, some s⟩ ∧ (∀ b ∈ k, b = 0) ∧ (∀ b ∈ s, b = 0) :=
  c3_cleared_on_success.1 c1Env (some "Hi") (Base64.encode [1, 2, 3]) "ML-KEM-1024"
    [2] [4] [5] 0 (mkEnvelope "ML-KEM-1024" [2, 1] [4] [5] [72, 105, 7] 0)
    (encryptFull c1Env (some "Hi") (Base64.encode [1, 2, 3]) "ML-KEM-1024" [2] [4] [5] 0).2
    rfl

/-- AEAD open that always reports a tag mismatch, for the C3
counterexample run. -/
def c3AeadDecrypt : List Nat → List Nat → List Nat → Except String (List Nat) :=
  fun _ _ _ => .error "invalid tag"

/-- A parsed envelope whose six checked fields are present, used by the
rigged JSON oracle of the C3 counterexample. -/
def c3Md : ParsedMessage :=
  { v := .num 3, alg := .str "ML-KEM-1024", kem := .str "AA==", s := .str "BA=="
    n := .str "AA==", c := .str "QQ==", t := .num 0 }

def c3Env : CryptoEnv :=
  { kemEncap := toyKemEncap
    kemDecap := toyKemDecap
    hkdfDerive := toyHkdf
    aeadEncrypt := toyAeadEncrypt
    aeadDecrypt := c3AeadDecrypt
    textEncode := toyTextEncode
    textDecode := toyTextDecode
    jsonParse := fun s => if s = "E" then some c3Md else none }

/-- C3 counterexample: a decrypt call that fails after key derivation
(AEAD authentication failure) and returns with both sensitive buffers
still holding their non-zero contents — the derived key [65, 4, 32] and
the shared secret [65] — so the claim that every failure path
zero-fills them is false of the code. -/
theorem c3_counterexample :
    (decryptFull c3Env "E" "QQ==" none).1
      = .error "Decryption failed: ChaCha20-Poly1305 decryption failed: invalid tag"
    ∧ (decryptFull c3Env "E" "QQ==" none).2 = ⟨some [65, 4, 32], some [65]⟩
    ∧ ¬ (∀ b ∈ [65, 4, 32], b = 0) ∧ ¬ (∀ b ∈ [65], b = 0) :=
  ⟨rfl, rfl, by decide, by decide⟩

/-! ## C4: unrecognized declared suite falls through to ML-KEM-1024 -/

/-- C4 (amended): when no caller override is given and the declared alg
field is anything other than "ML-KEM-768", decrypt does not fail with an
unsupported-suite error; it behaves exactly as if the suite were
"ML-KEM-1024" — the unrecognized name silently selects the ML-KEM-1024
primitive. -/
theorem c4_unrecognized_suite_fallthrough (env : CryptoEnv) (content sk : String)
    (md : ParsedMessage) (hmd : env.jsonParse content = some md)
    (halg : md.alg ≠ JSVal.str "ML-KEM-768") :
    decryptFull env content sk none = decryptFull env content sk (some "ML-KEM-1024") := by
  by_cases hc : content = ""
  · simp [decryptFull, hc]
  · by_cases hs : sk = ""
    · simp [decryptFull, hc, hs]
    · simp only [decryptFull, if_neg hc, if_neg hs, hmd]
      by_cases hok : envelopeFieldsOk md
      · simp only [hok, Bool.not_true, Bool.false_eq_true, if_false]
        rw [decryptAfterChecks.eq_def, decryptAfterChecks.eq_def]
        dsimp only
        rw [if_neg (by decide : ¬("ML-KEM-1024" = "")), if_neg halg,
          if_neg (by decide : ¬(JSVal.str "ML-KEM-1024" = JSVal.str "ML-KEM-768"))]
      · simp [hok]

/-- The parsed envelope of the C4 counterexample: the declared suite is
the unrecognized name "ML-KEM-512". -/
def c4Md : ParsedMessage :=
  { v := .num 3, alg := .str "ML-KEM-512", kem := .str "AA==", s := .str "BA=="
    n := .str "AA==", c := .str "QQ==", t := .num 0 }

/-- The parsed envelope of the C5 counterexample: all six checked
fields present, but the timestamp field t absent. -/
def c5Md : ParsedMessage :=
  { v := .num 3, alg := .str "ML-KEM-1024", kem := .str "AA==", s := .str "BA=="
    n := .str "AA==", c := .str "QQ==", t := .undef }

/-- AEAD open that returns the ciphertext unchanged, so the rigged
decrypt runs end to end. -/
def rigAeadDecrypt : List Nat → List Nat → List Nat → Except String (List Nat) :=
  fun _ _ ct => .ok ct

/-- Environment with a JSON oracle recognizing the two rigged envelope
texts used by the C4 and C5 counterexamples. -/
def rigEnv : CryptoEnv :=
  { kemEncap := toyKemEncap
    kemDecap := toyKemDecap
    hkdfDerive := toyHkdf
    aeadEncrypt := toyAeadEncrypt
    aeadDecrypt := rigAeadDecrypt
    textEncode := toyTextEncode
    textDecode := toyTextDecode
    jsonParse := fun s => if s = "E512" then some c4Md else if s = "E5" then some c5Md else none }

/-- C4 counterexample: an envelope whose declared suite is the
unrecognized "ML-KEM-512" is decrypted successfully (to "A" here) —
decrypt does not fail with an unsupported-suite error, contradicting
the claim. -/
theorem c4_counterexample :
    rigEnv.jsonParse "E512" = some c4Md ∧ c4Md.alg = JSVal.str "ML-KEM-512"
    ∧ (decryptFull rigEnv "E512" "QQ==" none).1 = .ok "A" :=
  ⟨rfl, rfl, rfl⟩

/-- C4 witness: the fallthrough theorem applied to the rigged run. -/
theorem c4_unrecognized_suite_fallthrough_witness :
    decryptFull rigEnv "E512" "QQ==" none = decryptFull rigEnv "E512" "QQ==" (some "ML-KEM-1024") :=
  c4_unrecognized_suite_fallthrough rigEnv "E512" "QQ==" c4Md rfl (by decide)

/-! ## C5: required envelope fields -/

/-- C5 (amended): after the input checks, decrypt fails with the
malformed-format error when the text does not parse, fails with the
missing-fields error when any of the SIX fields v, alg, kem, s, n, c of
the parsed object is absent or falsy, and otherwise proceeds past the
structure check; the six-field check is exactly the conjunction of
those six truthiness tests — the timestamp field t is not required. -/
theorem c5_structure_check (env : CryptoEnv) (content sk : String) (ov : Option String)
    (hc : content ≠ "") (hs : sk ≠ "") :
    (env.jsonParse content = none →
      decryptFull env content sk ov
        = (.error "Decryption failed: Invalid encrypted message format", ⟨none, none⟩))
    ∧ (∀ md, env.jsonParse content = some md → envelopeFieldsOk md = false →
      decryptFull env content sk ov
        = (.error "Decryption failed: Missing required fields in encrypted message",
           ⟨none, none⟩))
    ∧ (∀ md, env.jsonParse content = some md → envelopeFieldsOk md = true →
      decryptFull env content sk ov = decryptAfterChecks env sk ov md)
    ∧ (∀ md : ParsedMessage, envelopeFieldsOk md = true ↔
        (md.v.truthy = true ∧ md.alg.truthy = true ∧ md.kem.truthy = true
          ∧ md.s.truthy = true ∧ md.n.truthy = true ∧ md.c.truthy = true)) := by
  refine ⟨?_, ?_, ?_, ?_⟩
  · intro hp
    rw [decryptFull, if_neg hc, if_neg hs, hp]
  · intro md hp hok
    rw [decryptFull, if_neg hc, if_neg hs, hp]
    simp [hok]
  · intro md hp hok
    rw [decryptFull, if_neg hc, if_neg hs, hp]
    simp [hok]
  · intro md
    simp [envelopeFieldsOk, Bool.and_eq_true, and_assoc]

/-- C5 counterexample: a parsed envelope with the timestamp field t
absent passes the structure check and decrypts successfully, so the
claim that all seven fields are required is false of the code. -/
theorem c5_counterexample :
    rigEnv.jsonParse "E5" = some c5Md ∧ c5Md.t = JSVal.undef
    ∧ (decryptFull rigEnv "E5" "QQ==" none).1 = .ok "A" :=
  ⟨rfl, rfl, rfl⟩

/-- C5 witness: the structure-check theorem applied to the rigged run
with the t-less envelope. -/
theorem c5_structure_check_witness :
    decryptFull rigEnv "E5" "QQ==" none = decryptAfterChecks rigEnv "QQ==" none c5Md :=
  (c5_structure_check rigEnv "E5" "QQ==" none (by decide) (by decide)).2.2.1
    c5Md rfl (by decide)

/-! ## C6: export and import round-trip -/

/-- C6: importing an exported key pair restores every field, and
importing an exported record with the algorithm field removed yields
the same keys tagged with the default suite ML-KEM-1024. -/
theorem c6_export_import_round_trip (K : KeyPair) (now : Nat)
    (hpk : K.publicKey ≠ "") (hsk : K.privateKey ≠ "")
    (halg : K.algorithm ∈ SUPPORTED_ALGORITHMS) :
    importKeyPair (exportKeyPair K now).toImportData = .ok K
    ∧ importKeyPair { (exportKeyPair K now).toImportData with algorithm := none }
        = .ok { K with algorithm := DEFAULT_ALGORITHM } := by
  obtain ⟨pk, sk, alg⟩ := K
  simp only [KeyPair.publicKey] at hpk
  simp only [KeyPair.privateKey] at hsk
  simp only [KeyPair.algorithm, SUPPORTED_ALGORITHMS, List.mem_cons,
    List.mem_singleton, List.not_mem_nil, or_false] at halg
  have halgne : alg ≠ "" := by rcases halg with h | h <;> simp [h]
  constructor
  · rw [importKeyPair]
    simp only [exportKeyPair, ExportedKeyRecord.toImportData, if_neg hpk, if_neg hsk,
      jsOrString, if_neg halgne]
    rcases halg with h | h <;> simp [h, SUPPORTED_ALGORITHMS]
  · rw [importKeyPair]
    simp only [exportKeyPair, ExportedKeyRecord.toImportData, if_neg hpk, if_neg hsk,
      jsOrString]
    simp [SUPPORTED_ALGORITHMS, DEFAULT_ALGORITHM]

/-- C6 witness: a concrete ML-KEM-768 key pair round-trips, and drops
to the default suite when the algorithm field is removed. -/
theorem c6_export_import_round_trip_witness :
    importKeyPair (exportKeyPair ⟨"QQ==", "Qg==", "ML-KEM-768"⟩ 7).toImportData
      = .ok ⟨"QQ==", "Qg==", "ML-KEM-768"⟩
    ∧ importKeyPair { (exportKeyPair ⟨"QQ==", "Qg==", "ML-KEM-768"⟩ 7).toImportData
          with algorithm := none }
        = .ok { (⟨"QQ==", "Qg==", "ML-KEM-768"⟩ : KeyPair) with algorithm := DEFAULT_ALGORITHM } :=
  c6_export_import_round_trip ⟨"QQ==", "Qg==", "ML-KEM-768"⟩ 7 (by decide) (by decide)
    (by simp [SUPPORTED_ALGORITHMS])

/-! ## C7: validatePublicKey -/

/-- C7: validatePublicKey is a total boolean predicate (it can never
throw: the embedding is a total function into Bool), and it returns
false for non-string input, for strings failing the base64 format test,
for keys whose decoded length differs from the declared suite size —
in particular a key of one suite checked against the other suite, and
any unrecognized suite name — and for an all-zero decoded key. -/
theorem c7_validate_public_key :
    (∀ (x : JSVal) (alg : String), (∀ s, x ≠ JSVal.str s) → validatePublicKey x alg = false)
    ∧ (∀ (s alg : String), isBase64Format s = false → validatePublicKey (.str s) alg = false)
    ∧ (∀ (bs : List Nat) (alg : String), (∀ b ∈ bs, b < 256) → bs ≠ [] →
        (alg = "ML-KEM-1024" → bs.length ≠ ML_KEM_1024_PUBLIC_KEY_SIZE) →
        (alg = "ML-KEM-768" → bs.length ≠ ML_KEM_768_PUBLIC_KEY_SIZE) →
        validatePublicKey (.str (Base64.encode bs)) alg = false)
    ∧ (∀ (n : Nat) (alg : String), 0 < n →
        validatePublicKey (.str (Base64.encode (List.replicate n 0))) alg = false) := by
  refine ⟨?_, ?_, ?_, ?_⟩
  · intro x alg h
    cases x with
    | str s => exact absurd rfl (h s)
    | num n => rfl
    | boolean b => rfl
    | null => rfl
    | undef => rfl
  · intro s alg hfmt
    by_cases hse : s = ""
    · simp [validatePublicKey, hse]
    · simp [validatePublicKey, hse, hfmt]
  · intro bs alg hb hne h1024 h768
    have hfmt := isBase64Format_encode hne hb
    have hdec := Base64.decode_encode bs hb
    rw [validatePublicKey]
    simp only [if_neg (Base64.encode_ne_empty hne), hfmt, Bool.not_true,
      Bool.false_eq_true, if_false, hdec]
    by_cases ha : alg = "ML-KEM-1024"
    · simp [ha, h1024 ha]
    · by_cases ha7 : alg = "ML-KEM-768"
      · simp [ha, ha7, h768 ha7]
      · simp [ha, ha7]
  · intro n alg hn
    have hb : ∀ b ∈ List.replicate n 0, b < 256 := by
      intro b hbm
      rw [List.eq_of_mem_replicate hbm]
      decide
    have hne : List.replicate n 0 ≠ [] := by
      intro h
      have := congrArg List.length h
      simp at this
      omega
    have hfmt := isBase64Format_encode hne hb
    have hdec := Base64.decode_encode (List.replicate n 0) hb
    have hzeros : (List.replicate n 0).all (fun b => b == 0) = true := by
      simp [List.all_eq_true, List.mem_replicate]
    rw [validatePublicKey]
    simp only [if_neg (Base64.encode_ne_empty hne), hfmt, Bool.not_true,
      Bool.false_eq_true, if_false, hdec, hzeros]
    by_cases ha : alg = "ML-KEM-1024"
    · simp [ha]
    · by_cases ha7 : alg = "ML-KEM-768"
      · simp [ha, ha7]
      · simp [ha, ha7]

/-- C7 witness: a 1568-byte key (the ML-KEM-1024 size) is rejected
against ML-KEM-768, and an all-zero key of the correct ML-KEM-1024
size is rejected too. -/
theorem c7_validate_public_key_witness :
    validatePublicKey (JSVal.str (Base64.encode (List.replicate 1568 1))) "ML-KEM-768" = false
    ∧ validatePublicKey (JSVal.str (Base64.encode (List.replicate 1568 0))) "ML-KEM-1024"
        = false :=
  ⟨c7_validate_public_key.2.2.1 (List.replicate 1568 1) "ML-KEM-768"
      (fun b hb => by rw [List.eq_of_mem_replicate hb]; decide)
      (List.ne_nil_of_length_pos (by rw [List.length_replicate]; decide))
      (fun h => absurd h (by decide))
      (fun _ => by rw [List.length_replicate]; decide),
    c7_validate_public_key.2.2.2 1568 "ML-KEM-1024" (by decide)⟩

/-! ## C8: non-determinism of encrypt -/

/-- C8 (amended): two encrypt calls with the same message, public key
and suite that draw distinct 32-byte salts and distinct 12-byte nonces
emit distinct serialized envelopes, with distinct salt fields and
distinct nonce fields. Distinctness of the AEAD ciphertext field is
not entailed by the code together with the §6 contracts; see the
counterexample. -/
theorem c8_distinct_envelopes (env : CryptoEnv) (m pk alg : String)
    (coins1 coins2 salt1 salt2 nonce1 nonce2 ct1 ct2 ss1 ss2 mct1 mct2 : List Nat)
    (now1 now2 : Nat)
    (hpkne : pk ≠ "") (hfmt : isBase64Format pk = true)
    (hsalt1 : ∀ b ∈ salt1, b < 256) (hsalt2 : ∀ b ∈ salt2, b < 256)
    (hs1len : salt1.length = 32) (hs2len : salt2.length = 32)
    (hnonce1 : ∀ b ∈ nonce1, b < 256) (hnonce2 : ∀ b ∈ nonce2, b < 256)
    (hn1len : nonce1.length = 12) (hn2len : nonce2.length = 12)
    (hsne : salt1 ≠ salt2) (hnne : nonce1 ≠ nonce2)
    (hctlen : ct1.length = ct2.length)
    (henc1 : env.kemEncap (algToKem alg) (Base64.decode pk) coins1 = .ok (ct1, ss1))
    (henc2 : env.kemEncap (algToKem alg) (Base64.decode pk) coins2 = .ok (ct2, ss2))
    (hseal1 : env.aeadEncrypt (env.hkdfDerive ss1 salt1 "ChaCha20-Poly1305" 32) nonce1
      (env.textEncode m) = .ok mct1)
    (hseal2 : env.aeadEncrypt (env.hkdfDerive ss2 salt2 "ChaCha20-Poly1305" 32) nonce2
      (env.textEncode m) = .ok mct2) :
    (encryptFull env (some m) pk alg coins1 salt1 nonce1 now1).1
      = .ok (mkEnvelope alg ct1 salt1 nonce1 mct1 now1)
    ∧ (encryptFull env (some m) pk alg coins2 salt2 nonce2 now2).1
      = .ok (mkEnvelope alg ct2 salt2 nonce2 mct2 now2)
    ∧ serializeEnvelope (mkEnvelope alg ct1 salt1 nonce1 mct1 now1)
      ≠ serializeEnvelope (mkEnvelope alg ct2 salt2 nonce2 mct2 now2)
    ∧ (mkEnvelope alg ct1 salt1 nonce1 mct1 now1).s
      ≠ (mkEnvelope alg ct2 salt2 nonce2 mct2 now2).s
    ∧ (mkEnvelope alg ct1 salt1 nonce1 mct1 now1).n
      ≠ (mkEnvelope alg ct2 salt2 nonce2 mct2 now2).n := by
  have hkemlen : (Base64.encode ct1).data.length = (Base64.encode ct2).data.length := by
    rw [encode_data_length, encode_data_length, hctlen]
  have hsaltlen : (Base64.encode salt1).data.length = (Base64.encode salt2).data.length := by
    rw [encode_data_length, encode_data_length, hs1len, hs2len]
  refine ⟨?_, ?_, ?_, ?_, ?_⟩
  · rw [encryptFull]
    simp only [if_neg hpkne, hfmt, Bool.not_true, Bool.false_eq_true, if_false, henc1,
      ChaCha20Poly1305.encrypt, hseal1]
  · rw [encryptFull]
    simp only [if_neg hpkne, hfmt, Bool.not_true, Bool.false_eq_true, if_false, henc2,
      ChaCha20Poly1305.encrypt, hseal2]
  · intro hser
    have hchars : serializeChars (mkEnvelope alg ct1 salt1 nonce1 mct1 now1)
        = serializeChars (mkEnvelope alg ct2 salt2 nonce2 mct2 now2) := by
      injection hser
    simp only [serializeChars, mkEnvelope, List.append_assoc] at hchars
    have h1 := List.append_cancel_left hchars
    have h2 := List.append_cancel_left h1
    have h3 := List.append_cancel_left h2
    have h4 := List.append_cancel_left h3
    have h5 := List.append_cancel_left h4
    obtain ⟨-, h6⟩ := List.append_inj h5 hkemlen
    have h7 := List.append_cancel_left h6
    obtain ⟨h8, -⟩ := List.append_inj h7 hsaltlen
    exact hsne (Base64.encode_injOn hsalt1 hsalt2 (congrArg String.mk h8))
  · intro h
    simp only [mkEnvelope] at h
    exact hsne (Base64.encode_injOn hsalt1 hsalt2 h)
  · intro h
    simp only [mkEnvelope] at h
    exact hnne (Base64.encode_injOn hnonce1 hnonce2 h)

/-- C8 witness: two concrete runs with distinct 32-byte salts and
distinct 12-byte nonces give distinct envelopes. -/
theorem c8_distinct_envelopes_witness :
    (encryptFull c1Env (some "Hi") (Base64.encode [1, 2, 3]) "ML-KEM-1024" [2]
        (List.replicate 32 1) (List.replicate 12 1) 0).1
      = .ok (mkEnvelope "ML-KEM-1024" [2, 1] (List.replicate 32 1) (List.replicate 12 1)
          [72, 105, 7] 0)
    ∧ (encryptFull c1Env (some "Hi") (Base64.encode [1, 2, 3]) "ML-KEM-1024" [2]
        (List.replicate 32 2) (List.replicate 12 2) 0).1
      = .ok (mkEnvelope "ML-KEM-1024" [2, 1] (List.replicate 32 2) (List.replicate 12 2)
          [72, 105, 7] 0)
    ∧ serializeEnvelope (mkEnvelope "ML-KEM-1024" [2, 1] (List.replicate 32 1)
          (List.replicate 12 1) [72, 105, 7] 0)
      ≠ serializeEnvelope (mkEnvelope "ML-KEM-1024" [2, 1] (List.replicate 32 2)
          (List.replicate 12 2) [72, 105, 7] 0)
    ∧ (mkEnvelope "ML-KEM-1024" [2, 1] (List.replicate 32 1) (List.replicate 12 1)
        [72, 105, 7] 0).s
      ≠ (mkEnvelope "ML-KEM-1024" [2, 1] (List.replicate 32 2) (List.replicate 12 2)
          [72, 105, 7] 0).s
    ∧ (mkEnvelope "ML-KEM-1024" [2, 1] (List.replicate 32 1) (List.replicate 12 1)
        [72, 105, 7] 0).n
      ≠ (mkEnvelope "ML-KEM-1024" [2, 1] (List.replicate 32 2) (List.replicate 12 2)
          [72, 105, 7] 0).n :=
  c8_distinct_envelopes c1Env "Hi" (Base64.encode [1, 2, 3]) "ML-KEM-1024" [2] [2]
    (List.replicate 32 1) (List.replicate 32 2) (List.replicate 12 1) (List.replicate 12 2)
    [2, 1] [2, 1] [1, 2, 3] [1, 2, 3] [72, 105, 7] [72, 105, 7] 0 0
    (by decide) (by decide) (by decide) (by decide) (by decide) (by decide)
    (by decide) (by decide) (by decide) (by decide) (by decide) (by decide)
    rfl rfl rfl rfl rfl

/-- Primitives for the C8 counterexample: they satisfy every §6 contract
fact the theorems use — the KDF is a deterministic function, the AEAD
opens its own seal and rejects a bad tag — yet the KDF ignores its salt
and the seal ignores its nonce. -/
def c8Env : CryptoEnv :=
  { kemEncap := fun _ _ _ => .ok ([4], [5])
    kemDecap := toyKemDecap
    hkdfDerive := fun _ _ _ _ => [1]
    aeadEncrypt := fun _ _ pt => .ok (pt ++ [9])
    aeadDecrypt := fun _ _ ct =>
      if ct.getLast? = some 9 then .ok ct.dropLast else .error "invalid tag"
    textEncode := toyTextEncode
    textDecode := toyTextDecode
    jsonParse := fun _ => none }

def c8Envelope1 : Envelope :=
  mkEnvelope "ML-KEM-1024" [4] (List.replicate 32 1) (List.replicate 12 1) [72, 105, 9] 0

def c8Envelope2 : Envelope :=
  mkEnvelope "ML-KEM-1024" [4] (List.replicate 32 2) (List.replicate 12 2) [72, 105, 9] 0

/-- C8 counterexample: with §6-conforming primitives whose key
derivation ignores the salt and whose seal ignores the nonce, two
encrypt calls drawing distinct 32-byte salts and distinct 12-byte
nonces emit envelopes with EQUAL AEAD ciphertext fields, so the part of
the claim asserting distinct ciphertexts does not follow from the code
and the stated contracts. -/
theorem c8_counterexample :
    List.replicate 32 1 ≠ List.replicate 32 2
    ∧ List.replicate 12 1 ≠ List.replicate 12 2
    ∧ (encryptFull c8Env (some "Hi") "QQ==" "ML-KEM-1024" [0]
        (List.replicate 32 1) (List.replicate 12 1) 0).1 = .ok c8Envelope1
    ∧ (encryptFull c8Env (some "Hi") "QQ==" "ML-KEM-1024" [0]
        (List.replicate 32 2) (List.replicate 12 2) 0).1 = .ok c8Envelope2
    ∧ c8Envelope1.c = c8Envelope2.c
    ∧ c8Envelope1.s ≠ c8Envelope2.s :=
  ⟨by decide, by decide, rfl, rfl, rfl, by decide⟩

/-! ## C10: isValidEncryptedMessage -/

/-- C10: isValidEncryptedMessage is a total boolean predicate (the
embedding is a total function, matching the never-throws source
behaviour): it returns false for every non-string input, for the empty
string and for unparseable text, and on parsed text it is true exactly
when the six fields v, alg, kem, s, n, c are truthy — the timestamp
field t is not required, and no base64 or suite validity of the field
values is consulted. -/
theorem c10_is_valid_encrypted_message (env : CryptoEnv) :
    (∀ x : JSVal, (∀ s, x ≠ JSVal.str s) → isValidEncryptedMessage env x = false)
    ∧ isValidEncryptedMessage env (.str "") = false
    ∧ (∀ s : String, s ≠ "" → env.jsonParse s = none →
        isValidEncryptedMessage env (.str s) = false)
    ∧ (∀ (s : String) (md : ParsedMessage), s ≠ "" → env.jsonParse s = some md →
        (isValidEncryptedMessage env (.str s) = true ↔
          (md.v.truthy = true ∧ md.alg.truthy = true ∧ md.kem.truthy = true
            ∧ md.s.truthy = true ∧ md.n.truthy = true ∧ md.c.truthy = true))) := by
  refine ⟨?_, ?_, ?_, ?_⟩
  · intro x h
    cases x with
    | str s => exact absurd rfl (h s)
    | num n => rfl
    | boolean b => rfl
    | null => rfl
    | undef => rfl
  · rfl
  · intro s hs hp
    simp [isValidEncryptedMessage, hs, hp]
  · intro s md hs hp
    simp [isValidEncryptedMessage, hs, hp, envelopeFieldsOk, Bool.and_eq_true, and_assoc]

/-- C10 witness: a non-string input is rejected, and the rigged t-less
envelope text is accepted. -/
theorem c10_is_valid_encrypted_message_witness :
    isValidEncryptedMessage rigEnv (JSVal.num 5) = false
    ∧ isValidEncryptedMessage rigEnv (JSVal.str "E5") = true :=
  ⟨(c10_is_valid_encrypted_message rigEnv).1 (JSVal.num 5) (fun s h => by cases h),
    ((c10_is_valid_encrypted_message rigEnv).2.2.2 "E5" c5Md (by decide) rfl).mpr
      (by refine ⟨?_, ?_, ?_, ?_, ?_, ?_⟩ <;> decide)⟩
